import Mathlib

/-
Verification development for the sysext reconciliation engine
(src/engine/sysext.rs) and the health-check gate
(crates/trident_api/src/config/host/health.rs).

The Rust functions are shallowly embedded as pure Lean functions.  All
I/O performed by the Rust code (loop devices, mounts, directory
listings, the systemd-sysext child process, the cache file) is made
explicit: the state of the world is passed in as an environment record,
and the side effects the function performs are returned as an explicit
event trace, in program order.  Fallible Rust functions returning
anyhow::Result are embedded with an explicit result type that also has
a constructor for a Rust panic (the code indexes a vector, which can
panic).  The anyhow context strings attached by with_context do not
change control flow and are not modelled.
-/

namespace Trident


/-- Result of running a piece of Rust code: normal return, early return
of an error through the question-mark operator, or a panic. -/
inductive RResult (α : Type) where
  | ok (a : α)
  | err (e : String)
  | panicked
deriving DecidableEq

/-- The outcome of reading and parsing one file under an
extension-release directory: the read itself can fail, the
OsRelease parse can fail, or it yields a flat key=value map. -/
inductive FileRead where
  | readFail
  | parseFail
  | parsed (kv : List (String × String))
deriving DecidableEq

/-- One file of a release directory: its full path string and what
reading it produces. -/
structure RelFile where
  path : String
  read : FileRead
deriving DecidableEq

/-- What fs::read_dir on a directory yields: an error, or the listing. -/
inductive DirListing where
  | unreadable
  | files (fs : List RelFile)
deriving DecidableEq

/-- Mirror of struct Extension in src/engine/sysext.rs. -/
structure Extension where
  id : Option String
  sysext_id : Option String
  sysext_version_id : Option String
  sysext_scope : Option String
  architecture : Option String
  path : Option String
  name : String
deriving DecidableEq

/-- Mirror of struct ExtensionListObj (one entry of systemd-sysext
list --json output). -/
structure ExtensionListObj where
  name : String
  ext_type : String
  path : String
  time : Nat
deriving DecidableEq

/-- OsRelease::get_value: first value bound to the key, if any. -/
def get_value (kv : List (String × String)) (key : String) : Option String :=
  (kv.find? (fun p => p.fst == key)).map (fun p => p.snd)

/-- Whether the first list is a prefix of the second (boolean). -/
def isPre : List Char → List Char → Bool
  | [], _ => true
  | _ :: _, [] => false
  | a :: m, b :: s => a == b && isPre m s

/-- Suffix of s strictly after the last occurrence of marker, or none
when marker does not occur in s. -/
def afterLastAux (marker : List Char) : List Char → Option (List Char)
  | [] => none
  | c :: rest =>
    match afterLastAux marker rest with
    | some r => some r
    | none =>
      if isPre marker (c :: rest) then some ((c :: rest).drop marker.length)
      else none

/-- path.display().to_string().split("extension-release.").last():
the text after the last occurrence of the marker, or the whole string
when the marker is absent (Rust split always yields at least one
piece, so last() is never None and the ok_or_else branch in the source
is dead).  The marker cannot overlap itself, so last-occurrence
semantics coincide with Rust's left-to-right non-overlapping split. -/
def release_name_of_path (p : String) : String :=
  match afterLastAux ("extension-release.".data) p.data with
  | some r => String.mk r
  | none => p

/-- Mirror of get_extension_release.  The directory contents are passed
in explicitly.  The source indexes files[0] without checking that the
listing is nonempty, which panics on an empty directory; when several
files are present it silently uses the first. -/
def get_extension_release (directory : DirListing) : RResult Extension :=
  match directory with
  | .unreadable => .err "read_dir failed"
  | .files [] => .panicked
  | .files (f :: _) =>
    match f.read with
    | .readFail => .err "Failed to read extension-release file content"
    | .parseFail => .err "Failed to convert extension release file content to OsRelease object"
    | .parsed kv =>
      .ok { id := get_value kv "ID"
            sysext_id := get_value kv "SYSEXT_ID"
            sysext_version_id := get_value kv "SYSEXT_VERSION_ID"
            sysext_scope := get_value kv "SYSEXT_SCOPE"
            architecture := get_value kv "ARCHITECTURE"
            path := none
            name := release_name_of_path f.path }

/-- Mirror of find_existing_sysext: scan the existing list in order and
return the first entry whose sysext_id (an Option) equals the new
extension's sysext_id; the Rust function always returns Ok. -/
def find_existing_sysext (new : Extension) : List Extension → RResult (Option Extension)
  | [] => .ok none
  | ext :: rest =>
    if ext.sysext_id = new.sysext_id then .ok (some ext)
    else find_existing_sysext new rest

/-- An observable side effect of the engine, in program order. -/
inductive Ev where
  | createDir (p : String)
  | losetupAttach (img : String)
  | mount (dev mp : String)
  | umount (mp : String)
  | losetupDetach (dev : String)
  | readFile (p : String)
  | writeFile (p : String)
  | renameFile (src dst : String)
  | copy (src dst : String)
  | removeFile (p : String)
  | refresh
deriving DecidableEq

/-- Whether an event is an unmount of the scratch mount point. -/
def isUmount : Ev → Bool
  | .umount _ => true
  | _ => false

/-- Whether an event is a loop-device detach. -/
def isDetach : Ev → Bool
  | .losetupDetach _ => true
  | _ => false

/-- Whether an event is a rename. -/
def isRename : Ev → Bool
  | .renameFile _ _ => true
  | _ => false

/-- Whether an event mutates the managed extension directory (a merge
copy or an unmerge deletion). -/
def isMut : Ev → Bool
  | .copy _ _ => true
  | .removeFile _ => true
  | _ => false

/-- The part of a trace strictly after its first refresh event. -/
def afterRefresh (tr : List Ev) : List Ev :=
  (tr.dropWhile (fun e => !(e == Ev.refresh))).drop 1

/-- World state seen by get_extension_release_from_new_sysext: whether
creating the scratch directory succeeds, what losetup -f --show
returns, whether the ddi mount succeeds, the contents of
usr/lib/extension-release.d/ inside the mounted image, and whether the
explicit umount and losetup -d calls succeed. -/
structure MountEnv where
  createDirOk : Bool
  losetup : RResult String
  mountOk : Bool
  releaseDir : DirListing
  umountOk : Bool
  detachOk : Bool

/-- Mirror of get_extension_release_from_new_sysext, returning the
result together with the trace of side effects it performed.  The
unmount and detach commands appear in the source only after the
question-mark on get_extension_release, so an error from the
descriptor read returns before either cleanup command runs. -/
def get_extension_release_from_new_sysext (env : MountEnv) (img_path : String) :
    RResult Extension × List Ev :=
  if env.createDirOk = false then
    (.err "Failed to create directory at mount point", [Ev.createDir "/mnt/tmp"])
  else
    match env.losetup with
    | .panicked => (.panicked, [Ev.createDir "/mnt/tmp"])
    | .err _ =>
      (.err "Failed to setup loop device",
       [Ev.createDir "/mnt/tmp", Ev.losetupAttach img_path])
    | .ok loop_device =>
      if env.mountOk = false then
        (.err "Failed to mount loop device",
         [Ev.createDir "/mnt/tmp", Ev.losetupAttach img_path,
          Ev.mount loop_device "/mnt/tmp"])
      else
        match get_extension_release env.releaseDir with
        | .panicked =>
          (.panicked,
           [Ev.createDir "/mnt/tmp", Ev.losetupAttach img_path,
            Ev.mount loop_device "/mnt/tmp"])
        | .err e =>
          (.err e,
           [Ev.createDir "/mnt/tmp", Ev.losetupAttach img_path,
            Ev.mount loop_device "/mnt/tmp"])
        | .ok extension_release =>
          if env.umountOk = false then
            (.err "Failed to unmount",
             [Ev.createDir "/mnt/tmp", Ev.losetupAttach img_path,
              Ev.mount loop_device "/mnt/tmp", Ev.umount "/mnt/tmp"])
          else if env.detachOk = false then
            (.err "Failed to detach loop device",
             [Ev.createDir "/mnt/tmp", Ev.losetupAttach img_path,
              Ev.mount loop_device "/mnt/tmp", Ev.umount "/mnt/tmp",
              Ev.losetupDetach loop_device])
          else
            (.ok extension_release,
             [Ev.createDir "/mnt/tmp", Ev.losetupAttach img_path,
              Ev.mount loop_device "/mnt/tmp", Ev.umount "/mnt/tmp",
              Ev.losetupDetach loop_device])

/-- One desired sysext entry of the host configuration; its URL is
modelled as the path string the engine derives from it
(Url::to_file_path). -/
structure SysextImage where
  url : String
deriving DecidableEq

/-- Mirror of trident_api Sysexts: the desired add and remove lists. -/
structure Sysexts where
  add : List SysextImage
  remove : List SysextImage
deriving DecidableEq

/-- Output of the diff: the to_merge pairs (name, url), the to_unmerge
identities, and the SYSEXT_IDs the remove loop warned about (each
warn! call, in order). -/
structure DiffOut where
  to_merge : List (String × String)
  to_unmerge : List Extension
  warnings : List (Option String)
deriving DecidableEq

/-- The add loop of get_list_of_sysexts_to_merge_and_unmerge.  extract
stands for get_extension_release_from_new_sysext: the identity each
image URL resolves to.  An error in any iteration aborts the whole
function, discarding pushes from earlier iterations, exactly as the
Rust early return does. -/
def processAdds (extract : String → RResult Extension) (existing : List Extension) :
    List SysextImage → RResult (List (String × String) × List Extension)
  | [] => .ok ([], [])
  | s :: rest =>
    match extract s.url with
    | .panicked => .panicked
    | .err _ => .err "Failed to get extension release file"
    | .ok new_extension =>
      let contrib : List (String × String) × List Extension :=
        match find_existing_sysext new_extension existing with
        | .ok (some existing_ext_release) =>
          if existing_ext_release.sysext_version_id ≠ new_extension.sysext_version_id then
            ([(new_extension.name, s.url)], [existing_ext_release])
          else ([], [])
        | _ => ([(new_extension.name, s.url)], [])
      match processAdds extract existing rest with
      | .panicked => .panicked
      | .err e => .err e
      | .ok (m, u) => .ok (contrib.1 ++ m, contrib.2 ++ u)

/-- The remove loop of get_list_of_sysexts_to_merge_and_unmerge: a
match is pushed onto to_unmerge with no deduplication; a miss only
logs a warning. -/
def processRemoves (extract : String → RResult Extension) (existing : List Extension) :
    List SysextImage → RResult (List Extension × List (Option String))
  | [] => .ok ([], [])
  | s :: rest =>
    match extract s.url with
    | .panicked => .panicked
    | .err _ => .err "Failed to get extension release file"
    | .ok new_extension =>
      let contrib : List Extension × List (Option String) :=
        match find_existing_sysext new_extension existing with
        | .ok (some existing_ext_release) => ([existing_ext_release], [])
        | _ => ([], [new_extension.sysext_id])
      match processRemoves extract existing rest with
      | .panicked => .panicked
      | .err e => .err e
      | .ok (u, w) => .ok (contrib.1 ++ u, contrib.2 ++ w)

/-- Mirror of get_list_of_sysexts_to_merge_and_unmerge: run the add
loop, then the remove loop; the remove loop appends onto the same
to_unmerge accumulator the add loop filled. -/
def get_list_of_sysexts_to_merge_and_unmerge (extract : String → RResult Extension)
    (host_config_sysexts : Sysexts) (existing : List Extension) : RResult DiffOut :=
  match processAdds extract existing host_config_sysexts.add with
  | .panicked => .panicked
  | .err e => .err e
  | .ok (to_merge, u1) =>
    match processRemoves extract existing host_config_sysexts.remove with
    | .panicked => .panicked
    | .err e => .err e
    | .ok (u2, warnings) => .ok ⟨to_merge, u1 ++ u2, warnings⟩

/-- const CACHE_PATH of src/engine/sysext.rs. -/
def CACHE_PATH : String := "/var/cache/trident-sysext/cache.json"

/-- World state seen by the observed-state store: whether
/usr/lib/extension-release.d exists, its listing, what running
systemd-sysext list --json pretty produces after JSON decoding, and
whether creating the cache directory and writing the cache file
succeed. -/
structure StoreEnv where
  dirExists : Bool
  listing : DirListing
  sysextList : RResult (List ExtensionListObj)
  createCacheDirOk : Bool
  writeCacheOk : Bool

/-- The per-file loop of get_existing_sysexts: each release file is
read and parsed, its name is derived from the filename suffix, the
systemd-sysext listing is queried for that name to learn the merged
image path, and one Extension per file is accumulated in order. -/
def existingLoop (env : StoreEnv) : List RelFile → RResult (List Extension)
  | [] => .ok []
  | f :: rest =>
    match f.read with
    | .readFail => .err "Failed to read extension-release file content"
    | .parseFail => .err "Failed to convert extension release file content to OsRelease object"
    | .parsed kv =>
      match env.sysextList with
      | .panicked => .panicked
      | .err _ => .err "Failed to run systemd-sysext list"
      | .ok list_output =>
        match list_output.find? (fun obj => obj.name == release_name_of_path f.path) with
        | none => .err "Failed to find name in systemd-sysext list output"
        | some obj =>
          match existingLoop env rest with
          | .panicked => .panicked
          | .err e => .err e
          | .ok tail =>
            .ok ({ id := get_value kv "ID"
                   sysext_id := get_value kv "SYSEXT_ID"
                   sysext_version_id := get_value kv "SYSEXT_VERSION_ID"
                   sysext_scope := get_value kv "SYSEXT_SCOPE"
                   architecture := get_value kv "ARCHITECTURE"
                   path := some obj.path
                   name := release_name_of_path f.path } :: tail)

/-- Mirror of get_existing_sysexts: empty result when the release
directory does not exist, otherwise one Extension per listed file. -/
def get_existing_sysexts (env : StoreEnv) : RResult (List Extension) :=
  if env.dirExists = false then .ok []
  else
    match env.listing with
    | .unreadable => .err "read_dir failed"
    | .files fs => existingLoop env fs

/-- Mirror of write_to_cache, with its side effects as a trace: probe
the live system, serialize (serde_json::to_string on this data cannot
fail), create the cache directory, then write the JSON with a single
fs::write directly to CACHE_PATH. -/
def write_to_cache (env : StoreEnv) : RResult Unit × List Ev :=
  match get_existing_sysexts env with
  | .panicked => (.panicked, [])
  | .err _ => (.err "Failed to get exisiting sysexts", [])
  | .ok _sysexts =>
    if env.createCacheDirOk = false then
      (.err "Failed to create dirs", [Ev.createDir "/var/cache/trident-sysext"])
    else if env.writeCacheOk = false then
      (.err "Failed to write json to cache",
       [Ev.createDir "/var/cache/trident-sysext", Ev.writeFile CACHE_PATH])
    else
      (.ok (), [Ev.createDir "/var/cache/trident-sysext", Ev.writeFile CACHE_PATH])

/-- The SYSEXT_ID a release file contributes to the snapshot. -/
def fileSysextId (f : RelFile) : Option String :=
  match f.read with
  | .parsed kv => get_value kv "SYSEXT_ID"
  | _ => none

/-- No two members of the list are the same non-none value. -/
def optIdsUnique (l : List (Option String)) : Prop :=
  List.Pairwise (fun a b => a = none ∨ a ≠ b) l

/-- The claimed store invariant: no two entries share the same
non-empty sysext_id. -/
def sysext_id_unique (l : List Extension) : Prop :=
  optIdsUnique (l.map Extension.sysext_id)

/-- World state seen by install_sysexts: the optional sysexts section
of the host configuration, whether the cache file already exists, the
store environment used by both write_to_cache calls, the parsed cache
contents, the identity each image URL resolves to, and the success of
each filesystem mutation and of systemd-sysext refresh. -/
structure InstallEnv where
  sysexts : Option Sysexts
  cacheExists : Bool
  store : StoreEnv
  cacheRead : RResult (List Extension)
  extract : String → RResult Extension
  createExtDirOk : Bool
  copyOk : String → Bool
  removeOk : String → Bool
  refreshOk : Bool

/-- The merge loop of install_sysexts: for each planned merge, create
/var/lib/extensions and copy the image to its derived destination. -/
def mergeLoop (env : InstallEnv) : List (String × String) → RResult Unit × List Ev
  | [] => (.ok (), [])
  | (sysext_name, url) :: rest =>
    let sysext_new_path := "/var/lib/extensions/" ++ sysext_name ++ ".raw"
    if env.createExtDirOk = false then
      (.err "Failed to create dirs", [Ev.createDir "/var/lib/extensions"])
    else if env.copyOk sysext_new_path = false then
      (.err "Failed to copy",
       [Ev.createDir "/var/lib/extensions", Ev.copy url sysext_new_path])
    else
      match mergeLoop env rest with
      | (r, t) =>
        (r, Ev.createDir "/var/lib/extensions" :: Ev.copy url sysext_new_path :: t)

/-- The unmerge loop of install_sysexts: each staged identity must
carry a recorded path, whose file is then removed. -/
def unmergeLoop (env : InstallEnv) : List Extension → RResult Unit × List Ev
  | [] => (.ok (), [])
  | sysext :: rest =>
    match sysext.path with
    | none => (.err "Did not find path", [])
    | some p =>
      if env.removeOk p = false then
        (.err "Failed to remove file", [Ev.removeFile p])
      else
        match unmergeLoop env rest with
        | (r, t) => (r, Ev.removeFile p :: t)

/-- Mirror of install_sysexts: return immediately when the host
configuration has no sysexts section; bootstrap the cache when
absent; read it; diff; copy all merges; delete all unmerges; run
systemd-sysext refresh once; re-persist the cache. -/
def install_sysexts (env : InstallEnv) : RResult Unit × List Ev :=
  match env.sysexts with
  | none => (.ok (), [])
  | some sysexts =>
    match (if env.cacheExists then ((.ok (), []) : RResult Unit × List Ev)
           else write_to_cache env.store) with
    | (.panicked, t0) => (.panicked, t0)
    | (.err e, t0) => (.err e, t0)
    | (.ok _, t0) =>
      match env.cacheRead with
      | .panicked => (.panicked, t0 ++ [Ev.readFile CACHE_PATH])
      | .err _ => (.err "Failed to read from cache", t0 ++ [Ev.readFile CACHE_PATH])
      | .ok existing =>
        match get_list_of_sysexts_to_merge_and_unmerge env.extract sysexts existing with
        | .panicked => (.panicked, t0 ++ [Ev.readFile CACHE_PATH])
        | .err _ =>
          (.err "Failed to get list of sysexts to merge", t0 ++ [Ev.readFile CACHE_PATH])
        | .ok plan =>
          match mergeLoop env plan.to_merge with
          | (.panicked, t2) => (.panicked, t0 ++ [Ev.readFile CACHE_PATH] ++ t2)
          | (.err e, t2) => (.err e, t0 ++ [Ev.readFile CACHE_PATH] ++ t2)
          | (.ok _, t2) =>
            match unmergeLoop env plan.to_unmerge with
            | (.panicked, t3) =>
              (.panicked, t0 ++ [Ev.readFile CACHE_PATH] ++ t2 ++ t3)
            | (.err e, t3) => (.err e, t0 ++ [Ev.readFile CACHE_PATH] ++ t2 ++ t3)
            | (.ok _, t3) =>
              if env.refreshOk = false then
                (.err "Failed to run systemd-sysext refresh",
                 t0 ++ [Ev.readFile CACHE_PATH] ++ t2 ++ t3 ++ [Ev.refresh])
              else
                match write_to_cache env.store with
                | (.panicked, t5) =>
                  (.panicked,
                   t0 ++ [Ev.readFile CACHE_PATH] ++ t2 ++ t3 ++ [Ev.refresh] ++ t5)
                | (.err e, t5) =>
                  (.err e,
                   t0 ++ [Ev.readFile CACHE_PATH] ++ t2 ++ t3 ++ [Ev.refresh] ++ t5)
                | (.ok _, t5) =>
                  (.ok (),
                   t0 ++ [Ev.readFile CACHE_PATH] ++ t2 ++ t3 ++ [Ev.refresh] ++ t5)

/-- Modelled from the spec: crate::status::ServicingType is declared
outside the provided sources; the spec's glossary names the servicing
kinds (clean install, A/B update) and the health-check unit tests
exercise exactly CleanInstall and AbUpdate, so those two variants are
modelled. -/
inductive ServicingType where
  | cleanInstall
  | abUpdate
deriving DecidableEq

/-- Modelled from the spec: the run-on selection values a script can
carry in its configuration (the health-check tests use AbUpdate). -/
inductive ServicingTypeSelection where
  | cleanInstall
  | abUpdate
  | all
deriving DecidableEq

/-- Modelled from the spec: a script body is either inline content or
a path in the execution OS. -/
inductive ScriptSource where
  | content (s : String)
  | path (p : String)
deriving DecidableEq

/-- Modelled from the spec: crate::config::host::scripts::Script is
declared outside the provided sources; its fields are taken from the
health-check unit tests (name, run_on, interpreter, source). -/
structure Script where
  name : String
  run_on : List ServicingTypeSelection
  interpreter : Option String
  source : ScriptSource
deriving DecidableEq

/-- Mirror of struct SystemdCheck in health.rs. -/
structure SystemdCheck where
  name : String
  systemd_services : List String
  timeout_seconds : Nat
deriving DecidableEq

/-- Mirror of enum Check in health.rs. -/
inductive Check where
  | script (s : Script)
  | systemdCheck (c : SystemdCheck)
deriving DecidableEq

/-- Mirror of Check::should_run: the receiver is ignored and the
result depends only on whether the servicing type is AbUpdate. -/
def Check.should_run (_self : Check) (servicing_type : ServicingType) : Bool :=
  servicing_type == ServicingType.abUpdate

/-- An identity-less desired extension (all metadata keys absent). -/
def extNoIdNew : Extension :=
  { id := none, sysext_id := none, sysext_version_id := none,
    sysext_scope := none, architecture := none, path := none, name := "newimg" }

/-- An identity-less observed extension, distinct from extNoIdNew. -/
def extNoIdOld : Extension :=
  { id := none, sysext_id := none, sysext_version_id := none,
    sysext_scope := none, architecture := none, path := some "/var/lib/extensions/old.raw",
    name := "oldimg" }

/-- A well-formed release file declaring SYSEXT_ID x, version 1. -/
def relFileA : RelFile :=
  { path := "/mnt/tmp/usr/lib/extension-release.d/extension-release.exta",
    read := .parsed [("ID", "azl"), ("SYSEXT_ID", "x"), ("SYSEXT_VERSION_ID", "1")] }

/-- A second well-formed release file in the same directory. -/
def relFileB : RelFile :=
  { path := "/mnt/tmp/usr/lib/extension-release.d/extension-release.extb",
    read := .parsed [("ID", "azl"), ("SYSEXT_ID", "x"), ("SYSEXT_VERSION_ID", "2")] }

/-- The extension identity extracted from relFileA. -/
def extFromA : Extension :=
  { id := some "azl", sysext_id := some "x", sysext_version_id := some "1",
    sysext_scope := none, architecture := none, path := none, name := "exta" }

/-- A mount environment in which everything succeeds except that the
single release-descriptor file fails to parse. -/
def envBadDescriptor : MountEnv :=
  { createDirOk := true, losetup := .ok "/dev/loop0", mountOk := true,
    releaseDir := .files
      [{ path := "/mnt/tmp/usr/lib/extension-release.d/extension-release.bad",
         read := .parseFail }],
    umountOk := true, detachOk := true }

/-- Identity of the already-satisfied desired image in the C4 witness. -/
def dSame : Extension :=
  { id := some "azl", sysext_id := some "tools", sysext_version_id := some "1.0",
    sysext_scope := none, architecture := none, path := none, name := "tools" }

/-- Matching observed entry with the same version in the C4 witness. -/
def oSame : Extension :=
  { id := some "azl", sysext_id := some "tools", sysext_version_id := some "1.0",
    sysext_scope := none, architecture := none,
    path := some "/var/lib/extensions/tools.raw", name := "tools" }

/-- Observed entry at version 1, carried by both C5 scenarios. -/
def oDup : Extension :=
  { id := some "azl", sysext_id := some "net", sysext_version_id := some "1",
    sysext_scope := none, architecture := none,
    path := some "/var/lib/extensions/net.raw", name := "net" }

/-- Desired add image resolving to version 2 of the same sysext_id. -/
def dDupAdd : Extension :=
  { id := some "azl", sysext_id := some "net", sysext_version_id := some "2",
    sysext_scope := none, architecture := none, path := none, name := "net2" }

/-- Desired remove image resolving to the same sysext_id. -/
def dDupRem : Extension :=
  { id := some "azl", sysext_id := some "net", sysext_version_id := none,
    sysext_scope := none, architecture := none, path := none, name := "netrm" }

/-- Extractor used by the C5 counterexample. -/
def extractDup : String → RResult Extension :=
  fun u => if u = "file:///add.raw" then .ok dDupAdd else .ok dDupRem

/-- Release file extension-release.exta declaring SYSEXT_ID x. -/
def dupFileA : RelFile :=
  { path := "/usr/lib/extension-release.d/extension-release.exta",
    read := .parsed [("SYSEXT_ID", "x")] }

/-- Release file extension-release.extb declaring the same SYSEXT_ID. -/
def dupFileB : RelFile :=
  { path := "/usr/lib/extension-release.d/extension-release.extb",
    read := .parsed [("SYSEXT_ID", "x")] }

/-- A live system carrying two release files that both declare
SYSEXT_ID x. -/
def envDupIds : StoreEnv :=
  { dirExists := true,
    listing := .files [dupFileA, dupFileB],
    sysextList := .ok
      [{ name := "exta", ext_type := "system-extension",
         path := "/var/lib/extensions/exta.raw", time := 0 },
       { name := "extb", ext_type := "system-extension",
         path := "/var/lib/extensions/extb.raw", time := 0 }],
    createCacheDirOk := true, writeCacheOk := true }

/-- Snapshot entry produced from dupFileA. -/
def dupExtA : Extension :=
  { id := none, sysext_id := some "x", sysext_version_id := none,
    sysext_scope := none, architecture := none,
    path := some "/var/lib/extensions/exta.raw", name := "exta" }

/-- Snapshot entry produced from dupFileB. -/
def dupExtB : Extension :=
  { id := none, sysext_id := some "x", sysext_version_id := none,
    sysext_scope := none, architecture := none,
    path := some "/var/lib/extensions/extb.raw", name := "extb" }

/-- A live system whose two release files declare distinct
SYSEXT_IDs. -/
def envDistinctIds : StoreEnv :=
  { dirExists := true,
    listing := .files
      [dupFileA,
       { path := "/usr/lib/extension-release.d/extension-release.extb",
         read := .parsed [("SYSEXT_ID", "y")] }],
    sysextList := envDupIds.sysextList,
    createCacheDirOk := true, writeCacheOk := true }

/-- A store environment in which the probe and the cache write
succeed. -/
def envStoreOk : StoreEnv :=
  { dirExists := false, listing := .files [], sysextList := .ok [],
    createCacheDirOk := true, writeCacheOk := true }

/-- Install environment with no sysexts section in the host config. -/
def envNoSysexts : InstallEnv :=
  { sysexts := none, cacheExists := true, store := envStoreOk, cacheRead := .ok [],
    extract := fun _ => .panicked, createExtDirOk := true,
    copyOk := fun _ => true, removeOk := fun _ => true, refreshOk := true }

/-- Install environment for a full successful run merging one image. -/
def envRunOk : InstallEnv :=
  { sysexts := some ⟨[⟨"file:///new.raw"⟩], []⟩, cacheExists := true,
    store := envStoreOk, cacheRead := .ok [],
    extract := fun _ => .ok dSame, createExtDirOk := true,
    copyOk := fun _ => true, removeOk := fun _ => true, refreshOk := true }

/-- When the observed list filtered on d's sysext_id is exactly [o],
the linear scan of find_existing_sysext returns o. -/
theorem find_existing_of_filter_single (d o : Extension) (l : List Extension)
    (h : l.filter (fun e => decide (e.sysext_id = d.sysext_id)) = [o]) :
    find_existing_sysext d l = .ok (some o) := by
  induction l with
  | nil => simp at h
  | cons e rest ih =>
    by_cases hc : e.sysext_id = d.sysext_id
    · rw [List.filter_cons_of_pos (by simpa using hc)] at h
      obtain ⟨rfl, -⟩ := List.cons_eq_cons.mp h
      simp [find_existing_sysext, hc]
    · rw [List.filter_cons_of_neg (by simpa using hc)] at h
      simp [find_existing_sysext, hc, ih h]

/-- When no observed entry carries d's sysext_id, the scan returns
none. -/
theorem find_existing_of_filter_nil (d : Extension) (l : List Extension)
    (h : l.filter (fun e => decide (e.sysext_id = d.sysext_id)) = []) :
    find_existing_sysext d l = .ok none := by
  induction l with
  | nil => rfl
  | cons e rest ih =>
    by_cases hc : e.sysext_id = d.sysext_id
    · rw [List.filter_cons_of_pos (by simpa using hc)] at h
      simp at h
    · rw [List.filter_cons_of_neg (by simpa using hc)] at h
      simp [find_existing_sysext, hc, ih h]

/-- A successful probe maps each release file to exactly one snapshot
entry, whose sysext_id is exactly the SYSEXT_ID declared by that
file. -/
theorem existingLoop_map_sysext_id (env : StoreEnv) (fs : List RelFile)
    (l : List Extension) (h : existingLoop env fs = .ok l) :
    l.map Extension.sysext_id = fs.map fileSysextId := by
  induction fs generalizing l with
  | nil =>
    simp [existingLoop] at h
    simp [← h]
  | cons f rest ih =>
    cases hread : f.read with
    | readFail => simp [existingLoop, hread] at h
    | parseFail => simp [existingLoop, hread] at h
    | parsed kv =>
      cases hsl : env.sysextList with
      | panicked => simp [existingLoop, hread, hsl] at h
      | err e => simp [existingLoop, hread, hsl] at h
      | ok list_output =>
        cases hf : list_output.find? (fun obj => obj.name == release_name_of_path f.path) with
        | none => simp [existingLoop, hread, hsl, hf] at h
        | some obj =>
          cases hrec : existingLoop env rest with
          | panicked => simp [existingLoop, hread, hsl, hf, hrec] at h
          | err e => simp [existingLoop, hread, hsl, hf, hrec] at h
          | ok tail =>
            simp [existingLoop, hread, hsl, hf, hrec] at h
            subst h
            simp [fileSysextId, hread, ih tail hrec]

/-- The merge loop never triggers a refresh. -/
theorem mergeLoop_no_refresh (env : InstallEnv) (l : List (String × String)) :
    Ev.refresh ∉ (mergeLoop env l).2 := by
  induction l with
  | nil => simp [mergeLoop]
  | cons hd rest ih =>
    obtain ⟨sysext_name, url⟩ := hd
    by_cases h1 : env.createExtDirOk = false
    · simp [mergeLoop, h1]
    · by_cases h2 : env.copyOk ("/var/lib/extensions/" ++ sysext_name ++ ".raw") = false
      · simp [mergeLoop, h1, h2]
      · cases hrec : mergeLoop env rest with
        | mk r t =>
          rw [hrec] at ih
          simp only [mergeLoop, h1, h2, if_false, hrec]
          simpa using ih

/-- The unmerge loop never triggers a refresh. -/
theorem unmergeLoop_no_refresh (env : InstallEnv) (l : List Extension) :
    Ev.refresh ∉ (unmergeLoop env l).2 := by
  induction l with
  | nil => simp [unmergeLoop]
  | cons sysext rest ih =>
    cases hp : sysext.path with
    | none => simp [unmergeLoop, hp]
    | some p =>
      by_cases h1 : env.removeOk p = false
      · simp [unmergeLoop, hp, h1]
      · cases hrec : unmergeLoop env rest with
        | mk r t =>
          rw [hrec] at ih
          simp only [unmergeLoop, hp, h1, if_false, hrec]
          simpa using ih

/-- write_to_cache never triggers a refresh. -/
theorem write_to_cache_no_refresh (env : StoreEnv) :
    Ev.refresh ∉ (write_to_cache env).2 := by
  cases hg : get_existing_sysexts env with
  | panicked => simp [write_to_cache, hg]
  | err e => simp [write_to_cache, hg]
  | ok s =>
    by_cases h1 : env.createCacheDirOk = false
    · simp [write_to_cache, hg, h1]
    · by_cases h2 : env.writeCacheOk = false
      · simp [write_to_cache, hg, h1, h2]
      · simp [write_to_cache, hg, h1, h2]

/-- The trace of a successful write_to_cache run is exactly the cache
directory creation followed by the direct cache write. -/
theorem write_to_cache_ok_trace (env : StoreEnv) (u : Unit) (t : List Ev)
    (h : write_to_cache env = (.ok u, t)) :
    t = [Ev.createDir "/var/cache/trident-sysext", Ev.writeFile CACHE_PATH] := by
  cases hg : get_existing_sysexts env with
  | panicked => simp [write_to_cache, hg] at h
  | err e => simp [write_to_cache, hg] at h
  | ok s =>
    by_cases h1 : env.createCacheDirOk = false
    · simp [write_to_cache, hg, h1] at h
    · by_cases h2 : env.writeCacheOk = false
      · simp [write_to_cache, hg, h1, h2] at h
      · simp [write_to_cache, hg, h1, h2] at h
        exact h.symm

/-- Dropping everything before and including the refresh that follows
a refresh-free prefix yields exactly the suffix. -/
theorem afterRefresh_append (a b : List Ev) (ha : Ev.refresh ∉ a) :
    afterRefresh (a ++ Ev.refresh :: b) = b := by
  induction a with
  | nil => simp [afterRefresh, List.dropWhile_cons]
  | cons x a ih =>
    rw [List.mem_cons] at ha
    push_neg at ha
    obtain ⟨hx, ha2⟩ := ha
    have hbeq : (x == Ev.refresh) = false := by
      exact beq_eq_false_iff_ne.mpr (fun hh => hx (hh ▸ rfl))
    simp only [List.cons_append, afterRefresh, List.dropWhile_cons, hbeq,
      Bool.not_false, if_true]
    exact ih ha2

/-- Claim C1 (code behaviour at the failing input): when the image
mounts fine but its release descriptor fails to parse, the extractor
propagates the error through the question-mark operator and its trace
contains neither an unmount of the scratch mount point nor a
loop-device detach — the cleanup commands are placed only on the
success path, so the mount and the loop device are leaked. -/
theorem claim_C1_cleanup_skipped :
    (get_extension_release_from_new_sysext envBadDescriptor "/tmp/img.raw").1 =
      .err "Failed to convert extension release file content to OsRelease object" ∧
    ((get_extension_release_from_new_sysext envBadDescriptor "/tmp/img.raw").2.any isUmount
      = false) ∧
    ((get_extension_release_from_new_sysext envBadDescriptor "/tmp/img.raw").2.any isDetach
      = false) := by
  refine ⟨rfl, rfl, rfl⟩

/-- Claim C2 (counterexample): find_existing_sysext does match two
identities whose sysext_id fields are both None — Option equality makes
None equal to None, so the observed identity-less entry is returned as
a match, contradicting the claim that such entries are never treated as
equal. -/
theorem claim_C2_counterexample :
    extNoIdNew.sysext_id = none ∧ extNoIdOld.sysext_id = none ∧
    find_existing_sysext extNoIdNew [extNoIdOld] = .ok (some extNoIdOld) := by
  refine ⟨rfl, rfl, ?_⟩
  simp [find_existing_sysext, extNoIdNew, extNoIdOld]

/-- Claim C2 (amended): the lookup compares sysext_id with plain Option
equality, under which None equals None; a desired entry with
sysext_id = None is matched to the first observed entry whose
sysext_id is also None. -/
theorem claim_C2_amended (new ext : Extension) (rest : List Extension)
    (hnew : new.sysext_id = none) (hext : ext.sysext_id = none) :
    find_existing_sysext new (ext :: rest) = .ok (some ext) := by
  simp [find_existing_sysext, hnew, hext]

/-- Claim C2 (witness for the amended theorem). -/
theorem claim_C2_amended_witness :
    find_existing_sysext extNoIdNew (extNoIdOld :: []) = .ok (some extNoIdOld) :=
  claim_C2_amended extNoIdNew extNoIdOld [] rfl rfl

/-- Claim C3 (counterexample): on a directory with zero descriptor
files the extractor panics (files[0] on an empty vector) instead of
returning an error, and on a directory with two descriptor files it
silently succeeds on the first one instead of failing. -/
theorem claim_C3_counterexample :
    get_extension_release (.files []) = .panicked ∧
    get_extension_release (.files [relFileA, relFileB]) = .ok extFromA := by
  exact ⟨rfl, by decide⟩

/-- Claim C3 (amended): the extractor performs no cardinality check on
the directory listing: it unconditionally processes the first file, so
its result on a multi-file directory equals its result on the first
file alone, and on an empty directory it panics rather than returning
a MalformedImageError-class error. -/
theorem claim_C3_amended (f : RelFile) (rest : List RelFile) :
    get_extension_release (.files (f :: rest)) = get_extension_release (.files [f]) ∧
    get_extension_release (.files []) = .panicked :=
  ⟨rfl, rfl⟩

/-- Claim C4: for a desired_add entry resolving to identity d, against
an observed list whose sole entry with d's sysext_id is o: equal
version_ids produce no merge and no unmerge; different version_ids
produce exactly one merge (d's name and url) and exactly one unmerge
(o); and when no observed entry shares d's sysext_id, exactly one
merge and no unmerge. -/
theorem claim_C4_add_diff (extract : String → RResult Extension) (u : String)
    (d o : Extension) (existing : List Extension)
    (hx : extract u = .ok d) :
    (existing.filter (fun e => decide (e.sysext_id = d.sysext_id)) = [o] →
      (o.sysext_version_id = d.sysext_version_id →
        get_list_of_sysexts_to_merge_and_unmerge extract ⟨[⟨u⟩], []⟩ existing =
          .ok ⟨[], [], []⟩) ∧
      (o.sysext_version_id ≠ d.sysext_version_id →
        get_list_of_sysexts_to_merge_and_unmerge extract ⟨[⟨u⟩], []⟩ existing =
          .ok ⟨[(d.name, u)], [o], []⟩)) ∧
    (existing.filter (fun e => decide (e.sysext_id = d.sysext_id)) = [] →
      get_list_of_sysexts_to_merge_and_unmerge extract ⟨[⟨u⟩], []⟩ existing =
        .ok ⟨[(d.name, u)], [], []⟩) := by
  constructor
  · intro hfilter
    have hfind := find_existing_of_filter_single d o existing hfilter
    constructor
    · intro hv
      simp [get_list_of_sysexts_to_merge_and_unmerge, processAdds, processRemoves,
        hx, hfind, hv]
    · intro hv
      simp [get_list_of_sysexts_to_merge_and_unmerge, processAdds, processRemoves,
        hx, hfind, hv]
  · intro hfilter
    have hfind := find_existing_of_filter_nil d existing hfilter
    simp [get_list_of_sysexts_to_merge_and_unmerge, processAdds, processRemoves,
      hx, hfind]

/-- Claim C4 (witness): with a concrete extractor, desired image and
observed entry of equal version, the diff is empty. -/
theorem claim_C4_add_diff_witness :
    get_list_of_sysexts_to_merge_and_unmerge (fun _ => .ok dSame)
      ⟨[⟨"file:///new.raw"⟩], []⟩ [oSame] = .ok ⟨[], [], []⟩ :=
  ((claim_C4_add_diff (fun _ => .ok dSame) "file:///new.raw" dSame oSame [oSame]
      rfl).1 (by decide)).1 (by decide)

/-- Claim C5 (counterexample): an add that is a version change and a
remove that target the same sysext_id both stage the same observed
entry, and the remove loop pushes with no deduplication, so the
to_unmerge list contains that observed entry twice — refuting the
claim that the output unmerge list never contains the same observed
entry twice. -/
theorem claim_C5_counterexample :
    get_list_of_sysexts_to_merge_and_unmerge extractDup
      ⟨[⟨"file:///add.raw"⟩], [⟨"file:///rem.raw"⟩]⟩ [oDup] =
      .ok ⟨[("net2", "file:///add.raw")], [oDup, oDup], []⟩ ∧
    ¬ List.Nodup [oDup, oDup] := by
  exact ⟨by decide, by decide⟩

/-- Claim C5 (amended): a desired_remove entry whose resolved
sysext_id matches an observed entry appends that entry to the staged
unmerges without deduplication (an add version-change plus a remove on
the same sysext_id yield the entry twice); a desired_remove entry
matching nothing emits one warning carrying its sysext_id, stages
nothing, and the diff still succeeds. -/
theorem claim_C5_amended (extract : String → RResult Extension) (uA uR : String)
    (dA dR o : Extension) (existing : List Extension)
    (hA : extract uA = .ok dA) (hR : extract uR = .ok dR) :
    (existing.filter (fun e => decide (e.sysext_id = dR.sysext_id)) = [o] →
      get_list_of_sysexts_to_merge_and_unmerge extract ⟨[], [⟨uR⟩]⟩ existing =
        .ok ⟨[], [o], []⟩) ∧
    (existing.filter (fun e => decide (e.sysext_id = dR.sysext_id)) = [] →
      get_list_of_sysexts_to_merge_and_unmerge extract ⟨[], [⟨uR⟩]⟩ existing =
        .ok ⟨[], [], [dR.sysext_id]⟩) ∧
    (dR.sysext_id = dA.sysext_id →
      existing.filter (fun e => decide (e.sysext_id = dA.sysext_id)) = [o] →
      o.sysext_version_id ≠ dA.sysext_version_id →
      get_list_of_sysexts_to_merge_and_unmerge extract ⟨[⟨uA⟩], [⟨uR⟩]⟩ existing =
        .ok ⟨[(dA.name, uA)], [o, o], []⟩) := by
  refine ⟨?_, ?_, ?_⟩
  · intro hfilter
    have hfind := find_existing_of_filter_single dR o existing hfilter
    simp [get_list_of_sysexts_to_merge_and_unmerge, processAdds, processRemoves,
      hR, hfind]
  · intro hfilter
    have hfind := find_existing_of_filter_nil dR existing hfilter
    simp [get_list_of_sysexts_to_merge_and_unmerge, processAdds, processRemoves,
      hR, hfind]
  · intro hEq hfilter hv
    have hfindA := find_existing_of_filter_single dA o existing hfilter
    have hfilterR : existing.filter (fun e => decide (e.sysext_id = dR.sysext_id)) = [o] := by
      simp only [hEq]
      exact hfilter
    have hfindR := find_existing_of_filter_single dR o existing hfilterR
    simp [get_list_of_sysexts_to_merge_and_unmerge, processAdds, processRemoves,
      hA, hR, hfindA, hfindR, hv]

/-- Claim C5 (witness for the amended theorem): the duplicate-staging
scenario of the counterexample, reached through the amended theorem. -/
theorem claim_C5_amended_witness :
    get_list_of_sysexts_to_merge_and_unmerge extractDup
      ⟨[⟨"file:///add.raw"⟩], [⟨"file:///rem.raw"⟩]⟩ [oDup] =
      .ok ⟨[("net2", "file:///add.raw")], [oDup, oDup], []⟩ :=
  (claim_C5_amended extractDup "file:///add.raw" "file:///rem.raw"
      dDupAdd dDupRem oDup [oDup] (by decide) (by decide)).2.2
    (by decide) (by decide) (by decide)

/-- Claim C6 (counterexample): a successful save writes the serialized
JSON directly to the final cache path with fs::write — the trace holds
a direct write of CACHE_PATH and no rename at all, refuting the
claimed temp-write-then-rename protocol. -/
theorem claim_C6_counterexample :
    write_to_cache envStoreOk =
      (.ok (), [Ev.createDir "/var/cache/trident-sysext", Ev.writeFile CACHE_PATH]) ∧
    Ev.writeFile CACHE_PATH ∈ (write_to_cache envStoreOk).2 ∧
    (write_to_cache envStoreOk).2.any isRename = false := by
  refine ⟨rfl, by decide, rfl⟩

/-- Claim C6 (amended): every successful write_to_cache run creates
the cache directory and then writes the serialized snapshot directly
to the final cache path; no temporary file and no rename are
involved. -/
theorem claim_C6_amended (env : StoreEnv) (t : List Ev)
    (h : write_to_cache env = (.ok (), t)) :
    t = [Ev.createDir "/var/cache/trident-sysext", Ev.writeFile CACHE_PATH] ∧
    t.any isRename = false := by
  cases hg : get_existing_sysexts env with
  | panicked => simp [write_to_cache, hg] at h
  | err e => simp [write_to_cache, hg] at h
  | ok sysexts =>
    cases hcd : env.createCacheDirOk with
    | false => simp [write_to_cache, hg, hcd] at h
    | true =>
      cases hw : env.writeCacheOk with
      | false => simp [write_to_cache, hg, hcd, hw] at h
      | true =>
        simp [write_to_cache, hg, hcd, hw] at h
        subst h
        exact ⟨rfl, rfl⟩

/-- Claim C6 (witness for the amended theorem). -/
theorem claim_C6_amended_witness :
    [Ev.createDir "/var/cache/trident-sysext", Ev.writeFile CACHE_PATH] =
      [Ev.createDir "/var/cache/trident-sysext", Ev.writeFile CACHE_PATH] ∧
    [Ev.createDir "/var/cache/trident-sysext", Ev.writeFile CACHE_PATH].any isRename
      = false :=
  claim_C6_amended envStoreOk
    [Ev.createDir "/var/cache/trident-sysext", Ev.writeFile CACHE_PATH] rfl

/-- Claim C7: in every successful run of the applier that actually has
a sysexts section, the refresh operation appears exactly once in the
trace, and nothing after it copies or removes an extension file — all
merge copies and unmerge deletions happen strictly before the single
refresh. -/
theorem claim_C7_single_refresh (env : InstallEnv) (s : Sysexts) (tr : List Ev)
    (hs : env.sysexts = some s)
    (h : install_sysexts env = (.ok (), tr)) :
    tr.count Ev.refresh = 1 ∧
    (afterRefresh tr).all (fun e => !(isMut e)) = true := by
  unfold install_sysexts at h
  rw [hs] at h
  simp only [] at h
  split at h
  · simp at h
  · simp at h
  · rename_i u t0 hboot
    split at h
    · simp at h
    · simp at h
    · rename_i existing hcr
      split at h
      · simp at h
      · simp at h
      · rename_i plan hplan
        split at h
        · simp at h
        · simp at h
        · rename_i u2 t2 hmerge
          split at h
          · simp at h
          · simp at h
          · rename_i u3 t3 hunm
            split at h
            · simp at h
            · split at h
              · simp at h
              · simp at h
              · rename_i u5 t5 hwc
                have htr : tr = t0 ++ [Ev.readFile CACHE_PATH] ++ t2 ++ t3 ++
                    [Ev.refresh] ++ t5 := by
                  have := congrArg Prod.snd h
                  simpa using this.symm
                have ht0 : Ev.refresh ∉ t0 := by
                  by_cases hce : env.cacheExists = true
                  · rw [if_pos hce] at hboot
                    have : t0 = [] := by
                      simpa using congrArg Prod.snd hboot
                    simp [this]
                  · rw [if_neg hce] at hboot
                    have := write_to_cache_no_refresh env.store
                    rw [hboot] at this
                    simpa using this
                have ht2 : Ev.refresh ∉ t2 := by
                  have := mergeLoop_no_refresh env plan.to_merge
                  rw [hmerge] at this
                  simpa using this
                have ht3 : Ev.refresh ∉ t3 := by
                  have := unmergeLoop_no_refresh env plan.to_unmerge
                  rw [hunm] at this
                  simpa using this
                have ht5 : t5 = [Ev.createDir "/var/cache/trident-sysext",
                    Ev.writeFile CACHE_PATH] :=
                  write_to_cache_ok_trace env.store u5 t5 hwc
                have ha : Ev.refresh ∉ (t0 ++ [Ev.readFile CACHE_PATH] ++ t2 ++ t3) := by
                  simp [List.mem_append, ht0, ht2, ht3]
                have hshape : tr = (t0 ++ [Ev.readFile CACHE_PATH] ++ t2 ++ t3) ++
                    (Ev.refresh :: t5) := by
                  rw [htr]
                  simp [List.append_assoc]
                constructor
                · rw [hshape, List.count_append]
                  rw [List.count_eq_zero.mpr ha]
                  rw [ht5]
                  decide
                · rw [hshape]
                  have := afterRefresh_append
                    (t0 ++ [Ev.readFile CACHE_PATH] ++ t2 ++ t3) t5 ha
                  rw [this]
                  rw [ht5]
                  decide

/-- Claim C7 (witness): a concrete successful run that merges one
image; its trace holds one refresh, after the copy and before only
the cache re-persist. -/
theorem claim_C7_single_refresh_witness :
    ([Ev.readFile CACHE_PATH, Ev.createDir "/var/lib/extensions",
      Ev.copy "file:///new.raw" "/var/lib/extensions/tools.raw", Ev.refresh,
      Ev.createDir "/var/cache/trident-sysext",
      Ev.writeFile CACHE_PATH].count Ev.refresh = 1) ∧
    (afterRefresh
      [Ev.readFile CACHE_PATH, Ev.createDir "/var/lib/extensions",
       Ev.copy "file:///new.raw" "/var/lib/extensions/tools.raw", Ev.refresh,
       Ev.createDir "/var/cache/trident-sysext",
       Ev.writeFile CACHE_PATH]).all (fun e => !(isMut e)) = true :=
  claim_C7_single_refresh envRunOk ⟨[⟨"file:///new.raw"⟩], []⟩
    [Ev.readFile CACHE_PATH, Ev.createDir "/var/lib/extensions",
     Ev.copy "file:///new.raw" "/var/lib/extensions/tools.raw", Ev.refresh,
     Ev.createDir "/var/cache/trident-sysext", Ev.writeFile CACHE_PATH]
    rfl (by decide)

/-- Claim C8 (counterexample): the bootstrap probe builds one entry
per release file with no deduplication, so a system whose two release
files both declare SYSEXT_ID x yields a snapshot with two entries
sharing that non-empty sysext_id, refuting the claimed uniqueness
invariant; write_to_cache persists exactly this list. -/
theorem claim_C8_counterexample :
    get_existing_sysexts envDupIds = .ok [dupExtA, dupExtB] ∧
    ¬ sysext_id_unique [dupExtA, dupExtB] := by
  constructor
  · decide
  · simp [sysext_id_unique, optIdsUnique, dupExtA, dupExtB]

/-- Claim C8 (amended): the store emits exactly one entry per release
file, carrying that file's declared SYSEXT_ID; it enforces no
uniqueness, so the snapshot is free of duplicate non-empty sysext_ids
exactly when the files' declared SYSEXT_IDs are themselves free of
duplicates. -/
theorem claim_C8_amended (env : StoreEnv) (fs : List RelFile) (l : List Extension)
    (hdir : env.dirExists = true) (hlist : env.listing = .files fs)
    (h : get_existing_sysexts env = .ok l) :
    l.map Extension.sysext_id = fs.map fileSysextId ∧
    (optIdsUnique (fs.map fileSysextId) → sysext_id_unique l) := by
  have hloop : existingLoop env fs = .ok l := by
    simpa [get_existing_sysexts, hdir, hlist] using h
  have hmap := existingLoop_map_sysext_id env fs l hloop
  exact ⟨hmap, fun hu => by simpa [sysext_id_unique, hmap] using hu⟩

/-- Claim C8 (witness for the amended theorem): with distinct declared
SYSEXT_IDs the produced snapshot satisfies the uniqueness property. -/
theorem claim_C8_amended_witness :
    sysext_id_unique
      [dupExtA,
       { id := none, sysext_id := some "y", sysext_version_id := none,
         sysext_scope := none, architecture := none,
         path := some "/var/lib/extensions/extb.raw", name := "extb" }] :=
  (claim_C8_amended envDistinctIds
      [dupFileA,
       { path := "/usr/lib/extension-release.d/extension-release.extb",
         read := .parsed [("SYSEXT_ID", "y")] }]
      [dupExtA,
       { id := none, sysext_id := some "y", sysext_version_id := none,
         sysext_scope := none, architecture := none,
         path := some "/var/lib/extensions/extb.raw", name := "extb" }]
      rfl rfl (by decide)).2
    (by simp [dupFileA, fileSysextId, optIdsUnique, get_value])

/-- Claim C9: for every Check value — either variant, whatever its
fields, including the script's run_on list — should_run answers true
exactly on ServicingType.AbUpdate, and any two Check values answer
alike on every servicing type. -/
theorem claim_C9_should_run (c : Check) (st : ServicingType) :
    (Check.should_run c st = true ↔ st = ServicingType.abUpdate) ∧
    (∀ c2 : Check, Check.should_run c st = Check.should_run c2 st) := by
  constructor
  · cases st <;> simp [Check.should_run]
  · intro c2
    rfl

/-- Claim C10: when the host configuration has no sysexts section the
applier returns Ok immediately with an empty effect trace: nothing is
read, written, copied, removed or refreshed. -/
theorem claim_C10_no_sysexts (env : InstallEnv) (h : env.sysexts = none) :
    install_sysexts env = (.ok (), []) := by
  unfold install_sysexts
  rw [h]

/-- Claim C10 (witness). -/
theorem claim_C10_no_sysexts_witness :
    install_sysexts envNoSysexts = (.ok (), []) :=
  claim_C10_no_sysexts envNoSysexts rfl

end Trident
